import Mathlib

/-!
# Verification of the Flogas integration's authenticated polling core

This file embeds the `FlogasAPI` client and the coordinator glue of
`custom_components/flogas/__init__.py` as pure Lean functions and proves
properties about them.

The network is modelled as a script: a list of `HttpResp` values consumed in
order, one per HTTP request the client issues.  Every request the client
issues is recorded in a log (a `List Request`), so theorems can count how many
requests reach each endpoint and inspect the headers that were attached.  When
the script runs out while the client still wants to issue a request, the
computation ends in a `blocked` outcome (the request that would have been
issued is still logged).
-/

namespace Flogas

/-- The five logical endpoints of the client
(`API_CSRF_URL`, `API_LOGIN_URL`, `API_DATA_URL`, `API_CUSTOMER_URL`,
`API_GAUGE_URL`). -/
inductive Endpoint
  | csrf
  | login
  | tankData
  | customer
  | gauge
deriving DecidableEq, Repr

/-- One scripted HTTP response.  `setCookies` models the `Set-Cookie` headers
the aiohttp session absorbs into its cookie jar.  The remaining fields model
the JSON body: `success` is the top-level success flag, `token` is
`response.token` (login), the four tank fields are the members of `response`
read by `get_tank_data`, `customerBalance` is `response.customer.balance`
(customer endpoint) and `errors` models the free-form error payload, which the
source only ever logs and never branches on. -/
structure HttpResp where
  status : Nat
  setCookies : List (String × String)
  success : Bool
  token : Option String
  remainingPercentage : Option Int
  daysRemaining : Option Int
  tankCapacity : Option Int
  lastGaugeReadingDate : Option String
  customerBalance : Option Int
  errors : Option String
deriving DecidableEq, Repr

/-- The aiohttp `ClientSession`: its closed flag and its cookie jar
(association list from cookie key to raw cookie value). -/
structure Session where
  closed : Bool
  jar : List (String × String)
deriving DecidableEq, Repr

/-- The `FlogasAPI` object state: the constructor arguments
`_account_reference` and `_password`, the bearer `_token`, and the optional
`_session`. -/
structure ApiState where
  accountReference : String
  password : String
  token : Option String
  sess : Option Session
deriving DecidableEq, Repr

/-- A request the client issued: target endpoint, the `Authorization` header
(if any), the `X-XSRF-TOKEN` header (if any), the credential body of the
login POST (if any) and the gauge `reading` body (if any). -/
structure Request where
  endpoint : Endpoint
  auth : Option String
  xsrf : Option String
  creds : Option (String × String)
  reading : Option Int
deriving DecidableEq, Repr

/-- Cookie-jar update on receiving a response: each received cookie replaces
any existing cookie with the same key (aiohttp keeps one cookie per key). -/
def updateJar (jar : List (String × String)) (cs : List (String × String)) :
    List (String × String) :=
  cs.foldl (fun j c => j.filter (fun p => p.1 ≠ c.1) ++ [c]) jar

/-- Hexadecimal digit value, as used by percent-decoding. -/
def hexDigit (c : Char) : Option Nat :=
  if '0' ≤ c ∧ c ≤ '9' then some (c.toNat - '0'.toNat)
  else if 'a' ≤ c ∧ c ≤ 'f' then some (c.toNat - 'a'.toNat + 10)
  else if 'A' ≤ c ∧ c ≤ 'F' then some (c.toNat - 'A'.toNat + 10)
  else none

/-- Percent-decoding on the character list: a valid `%XY` sequence becomes the
character with code `16*X + Y`; an invalid sequence is left untouched. -/
def unquoteChars : List Char → List Char
  | [] => []
  | '%' :: a :: b :: rest =>
    match hexDigit a, hexDigit b with
    | some hi, some lo => Char.ofNat (16 * hi + lo) :: unquoteChars rest
    | _, _ => '%' :: unquoteChars (a :: b :: rest)
  | c :: rest => c :: unquoteChars rest

/-- Model of `urllib.parse.unquote`, restricted to single-byte escape
sequences (the source applies it to the `XSRF-TOKEN` cookie value). -/
def urlUnquote (s : String) : String := ⟨unquoteChars s.data⟩

/-- The scan the source performs over `session.cookie_jar`: the first cookie
whose key is `XSRF-TOKEN`, with `urllib.parse.unquote` applied to its value. -/
def xsrfLookup (jar : List (String × String)) : Option String :=
  (jar.find? fun c => c.1 == "XSRF-TOKEN").map fun c => urlUnquote c.2

/-- `_ensure_session`: reuse the session unless it is absent or closed, in
which case a fresh session (empty cookie jar) is created and stored. -/
def ensureSession (st : ApiState) : ApiState × Session :=
  match st.sess with
  | none => ({ st with sess := some ⟨false, []⟩ }, ⟨false, []⟩)
  | some s =>
    if s.closed then ({ st with sess := some ⟨false, []⟩ }, ⟨false, []⟩)
    else (st, s)

/-- Store a (possibly cookie-updated) session back into the API state. -/
def putSession (st : ApiState) (ses : Session) : ApiState :=
  { st with sess := some ses }

/-- The `Authorization` header: `Bearer <token>` when a token is stored. -/
def bearer (t : Option String) : Option String := t.map (fun s => "Bearer " ++ s)

/-- The CSRF handshake request (`GET /sanctum/csrf-cookie`), sent with no
authorization or anti-forgery headers. -/
def csrfRequest : Request := ⟨.csrf, none, none, none, none⟩

/-- The exceptions the embedded code can raise: `UpdateFailed` from
`get_tank_data` and `ValueError` from `submit_gauge_reading`. -/
inductive Exc
  | updateFailed (msg : String)
  | valueError (msg : String)
deriving DecidableEq, Repr

/-- Outcome of an API method: a returned value, a raised exception, or
`blocked` when the response script is exhausted while the client still wants
to issue a request. -/
inductive OpResult (α : Type)
  | ok (v : α)
  | exc (e : Exc)
  | blocked
deriving DecidableEq, Repr

/-- Result of running one API method: its outcome, the final API state, the
unconsumed remainder of the response script, and the requests issued. -/
structure Out (α : Type) where
  res : α
  st : ApiState
  env : List HttpResp
  log : List Request
deriving Repr

/-- `FlogasAPI.login`.  Returns `some b` for the boolean the source returns
and `none` when the script is exhausted.  Faithful points: a non-204 handshake
returns `False`; the XSRF cookie value is unquoted and then checked with
Python truthiness (`if not xsrf_token`), so both a missing cookie and an
empty decoded value return `False`; a non-200 login status returns `False`
with no retry; on a 200 body with a true success flag the stored token is
unconditionally replaced by `response.token` (which may be absent). -/
def login (st0 : ApiState) (env : List HttpResp) : Out (Option Bool) :=
  let st := (ensureSession st0).1
  let ses0 := (ensureSession st0).2
  match env with
  | [] => ⟨none, st, [], [csrfRequest]⟩
  | r1 :: env1 =>
    let ses1 : Session := ⟨ses0.closed, updateJar ses0.jar r1.setCookies⟩
    if r1.status ≠ 204 then ⟨some false, putSession st ses1, env1, [csrfRequest]⟩
    else
      match xsrfLookup ses1.jar with
      | none => ⟨some false, putSession st ses1, env1, [csrfRequest]⟩
      | some t =>
        if t = "" then ⟨some false, putSession st ses1, env1, [csrfRequest]⟩
        else
          let req2 : Request := ⟨.login, none, some t, some (st.accountReference, st.password), none⟩
          match env1 with
          | [] => ⟨none, putSession st ses1, [], [csrfRequest, req2]⟩
          | r2 :: env2 =>
            let ses2 : Session := ⟨ses1.closed, updateJar ses1.jar r2.setCookies⟩
            if r2.status ≠ 200 then
              ⟨some false, putSession st ses2, env2, [csrfRequest, req2]⟩
            else if r2.success then
              ⟨some true, { st with token := r2.token, sess := some ses2 }, env2, [csrfRequest, req2]⟩
            else
              ⟨some false, putSession st ses2, env2, [csrfRequest, req2]⟩

theorem login_env_le (st : ApiState) (env : List HttpResp) :
    (login st env).env.length ≤ env.length := by
  unfold login
  cases env with
  | nil => simp
  | cons r1 env1 =>
    dsimp only
    split
    · simp
    · split
      · simp
      · split
        · simp
        · cases env1 with
          | nil => simp
          | cons r2 env2 =>
            dsimp only
            split
            · simp; omega
            · split <;> simp <;> omega

/-- The record returned by `get_tank_data` (field names follow the keys of
the returned dict; each value is `response.<key>` via `.get`, hence
optional). -/
structure TankData where
  remaining_percentage : Option Int
  days_remaining : Option Int
  tank_capacity : Option Int
  last_reading_date : Option String
deriving DecidableEq, Repr

/-- `FlogasAPI.get_tank_data`.  On a 401/403/419 status it calls `login`
(ignoring its boolean result, as the source does) and then recursively calls
itself on the remaining script; on any other non-200 status, or a 200 body
with a false success flag, it raises `UpdateFailed`; otherwise it returns the
four-field record. -/
def getTankData (st0 : ApiState) (env : List HttpResp) : Out (OpResult TankData) :=
  let st := (ensureSession st0).1
  let ses0 := (ensureSession st0).2
  let req : Request := ⟨.tankData, bearer st.token, xsrfLookup ses0.jar, none, none⟩
  match env with
  | [] => ⟨.blocked, st, [], [req]⟩
  | r :: rest =>
    let ses1 : Session := ⟨ses0.closed, updateJar ses0.jar r.setCookies⟩
    if r.status = 401 ∨ r.status = 403 ∨ r.status = 419 then
      let lo := login (putSession st ses1) rest
      let out := getTankData lo.st lo.env
      ⟨out.res, out.st, out.env, req :: (lo.log ++ out.log)⟩
    else if r.status ≠ 200 then
      ⟨.exc (.updateFailed ("Error fetching data: " ++ toString r.status)),
        putSession st ses1, rest, [req]⟩
    else if r.success then
      ⟨.ok ⟨r.remainingPercentage, r.daysRemaining, r.tankCapacity, r.lastGaugeReadingDate⟩,
        putSession st ses1, rest, [req]⟩
    else
      ⟨.exc (.updateFailed "API error"), putSession st ses1, rest, [req]⟩
termination_by env.length
decreasing_by
  exact Nat.lt_succ_of_le (login_env_le _ _)

/-- The dict returned by `get_customer_data`: `{}` on a non-200 status or a
false success flag, else `{"balance": response.customer.balance}`. -/
inductive CustDict
  | empty
  | withBalance (b : Option Int)
deriving DecidableEq, Repr

/-- `FlogasAPI.get_customer_data`.  Same 401/403/419 relogin-and-recurse
shape as `get_tank_data`, but failures other than that return the empty dict
instead of raising. -/
def getCustomerData (st0 : ApiState) (env : List HttpResp) : Out (OpResult CustDict) :=
  let st := (ensureSession st0).1
  let ses0 := (ensureSession st0).2
  let req : Request := ⟨.customer, bearer st.token, xsrfLookup ses0.jar, none, none⟩
  match env with
  | [] => ⟨.blocked, st, [], [req]⟩
  | r :: rest =>
    let ses1 : Session := ⟨ses0.closed, updateJar ses0.jar r.setCookies⟩
    if r.status = 401 ∨ r.status = 403 ∨ r.status = 419 then
      let lo := login (putSession st ses1) rest
      let out := getCustomerData lo.st lo.env
      ⟨out.res, out.st, out.env, req :: (lo.log ++ out.log)⟩
    else if r.status ≠ 200 then
      ⟨.ok .empty, putSession st ses1, rest, [req]⟩
    else if r.success then
      ⟨.ok (.withBalance r.customerBalance), putSession st ses1, rest, [req]⟩
    else
      ⟨.ok .empty, putSession st ses1, rest, [req]⟩
termination_by env.length
decreasing_by
  exact Nat.lt_succ_of_le (login_env_le _ _)

/-- The merged dict `{**tank_data, **customer_data}`: the four tank fields
plus, when `get_customer_data` returned a non-empty dict, the `balance` key.
`balance = none` means the key is absent; `balance = some b` means the key is
present with (optional) value `b`. -/
structure AllData where
  tank : TankData
  balance : Option (Option Int)
deriving DecidableEq, Repr

/-- Dict merge `{**tank_data, **customer_data}`. -/
def mergeData (t : TankData) (c : CustDict) : AllData :=
  match c with
  | .empty => ⟨t, none⟩
  | .withBalance b => ⟨t, some b⟩

/-- `FlogasAPI.get_all_data`: fetch tank data, then customer data, and merge.
An exception from `get_tank_data` propagates and `get_customer_data` is not
called. -/
def getAllData (st0 : ApiState) (env : List HttpResp) : Out (OpResult AllData) :=
  let o1 := getTankData st0 env
  match o1.res with
  | .ok t =>
    let o2 := getCustomerData o1.st o1.env
    match o2.res with
    | .ok c => ⟨.ok (mergeData t c), o2.st, o2.env, o1.log ++ o2.log⟩
    | .exc e => ⟨.exc e, o2.st, o2.env, o1.log ++ o2.log⟩
    | .blocked => ⟨.blocked, o2.st, o2.env, o1.log ++ o2.log⟩
  | .exc e => ⟨.exc e, o1.st, o1.env, o1.log⟩
  | .blocked => ⟨.blocked, o1.st, o1.env, o1.log⟩

/-- The dict `submit_gauge_reading` returns: just its success flag (the
attached error or response payload is not read by any caller in the source
beyond `result.get("success")`). -/
structure GaugeResult where
  success : Bool
deriving DecidableEq, Repr

/-- `FlogasAPI.submit_gauge_reading`.  Raises `ValueError` before any network
activity when the reading is outside `[0, 100]`; otherwise issues the gauge
POST, with the same 401/403/419 relogin-and-recurse shape; a non-200 status
or a false success flag yields `{"success": False, ...}`, else
`{"success": True, ...}`. -/
def submitGaugeReading (st0 : ApiState) (env : List HttpResp) (reading : Int) :
    Out (OpResult GaugeResult) :=
  if ¬ (0 ≤ reading ∧ reading ≤ 100) then
    ⟨.exc (.valueError "Reading must be between 0 and 100"), st0, env, []⟩
  else
    let st := (ensureSession st0).1
    let ses0 := (ensureSession st0).2
    let req : Request := ⟨.gauge, bearer st.token, xsrfLookup ses0.jar, none, some reading⟩
    match env with
    | [] => ⟨.blocked, st, [], [req]⟩
    | r :: rest =>
      let ses1 : Session := ⟨ses0.closed, updateJar ses0.jar r.setCookies⟩
      if r.status = 401 ∨ r.status = 403 ∨ r.status = 419 then
        let lo := login (putSession st ses1) rest
        let out := submitGaugeReading lo.st lo.env reading
        ⟨out.res, out.st, out.env, req :: (lo.log ++ out.log)⟩
      else if r.status ≠ 200 then
        ⟨.ok ⟨false⟩, putSession st ses1, rest, [req]⟩
      else if r.success then
        ⟨.ok ⟨true⟩, putSession st ses1, rest, [req]⟩
      else
        ⟨.ok ⟨false⟩, putSession st ses1, rest, [req]⟩
termination_by env.length
decreasing_by
  exact Nat.lt_succ_of_le (login_env_le _ _)

/-- `FlogasAPI.close`: closes the underlying session only when one exists and
is not already closed.  The boolean reports whether any transport activity
(an actual `session.close()`) took place. -/
def close (st : ApiState) : ApiState × Bool :=
  match st.sess with
  | none => (st, false)
  | some s =>
    if s.closed then (st, false)
    else ({ st with sess := some ⟨true, s.jar⟩ }, true)

/-- `FlogasDataUpdateCoordinator._async_update_data`: delegates to
`get_all_data`. -/
def asyncUpdateData (st : ApiState) (env : List HttpResp) : Out (OpResult AllData) :=
  getAllData st env

/-- Modelled from the spec: the hosting framework's `DataUpdateCoordinator`
base class (a dependency, not part of this repository) replaces its cached
data with the value `_async_update_data` returns, and keeps the previous
cached value unchanged when `_async_update_data` raises `UpdateFailed`.  The
first component is the cache after the refresh; the second is the refresh
outcome. -/
def coordinatorRefresh (cached : Option AllData) (st : ApiState) (env : List HttpResp) :
    Option AllData × Out (OpResult AllData) :=
  let o := asyncUpdateData st env
  match o.res with
  | .ok d => (some d, o)
  | .exc _ => (cached, o)
  | .blocked => (cached, o)

/-- Number of logged requests that target endpoint `e`. -/
def countEndpoint (log : List Request) (e : Endpoint) : Nat :=
  (log.filter fun q => decide (q.endpoint = e)).length

/-! ## Concrete response fixtures used as witnesses and counterexamples -/

/-- A fresh client state, as built by `FlogasAPI.__init__`. -/
def st0 : ApiState := ⟨"acct", "pw", none, none⟩

/-- A 401 authorization-failure response. -/
def resp401 : HttpResp := ⟨401, [], false, none, none, none, none, none, none, none⟩

/-- A generic server failure (HTTP 500). -/
def resp500 : HttpResp := ⟨500, [], false, none, none, none, none, none, none, none⟩

/-- Successful CSRF handshake (HTTP 204) setting the `XSRF-TOKEN` cookie to a
percent-encoded value. -/
def respCsrfOk : HttpResp :=
  ⟨204, [("XSRF-TOKEN", "tok%3A1")], true, none, none, none, none, none, none, none⟩

/-- CSRF handshake that returns 204 but sets an `XSRF-TOKEN` cookie with an
empty value. -/
def respCsrfEmptyCookie : HttpResp :=
  ⟨204, [("XSRF-TOKEN", "")], true, none, none, none, none, none, none, none⟩

/-- Successful login: HTTP 200, true success flag, bearer token in the body. -/
def respLoginOk : HttpResp :=
  ⟨200, [], true, some "B", none, none, none, none, none, none⟩

/-- Successful login response that carries no bearer token in its body. -/
def respLoginNoToken : HttpResp :=
  ⟨200, [], true, none, none, none, none, none, none, none⟩

/-- Token-mismatch status (419) on the login POST. -/
def respLogin419 : HttpResp :=
  ⟨419, [], false, none, none, none, none, none, none, some "csrf token mismatch"⟩

/-- Login rejected at application level: HTTP 200, success flag false, error
payload naming the credential fields. -/
def respLoginBadCreds : HttpResp :=
  ⟨200, [], false, none, none, none, none, none, none, some "accountReference, password"⟩

/-- Login rejected at application level with an unrelated error payload. -/
def respLoginRejected : HttpResp :=
  ⟨200, [], false, none, none, none, none, none, none, some "maintenance"⟩

/-- Successful tank-data response. -/
def respTankOk : HttpResp :=
  ⟨200, [], true, none, some 42, some 10, some 1000, some "2024-01-01", none, none⟩

/-- Successful customer response carrying a balance of 5. -/
def respCustomerOk : HttpResp :=
  ⟨200, [], true, none, none, none, none, none, some 5, none⟩

/-- Successful gauge-submission response. -/
def respGaugeOk : HttpResp :=
  ⟨200, [], true, none, none, none, none, none, none, none⟩

/-! ## Helper lemmas -/

/-- The cookie jar of the session right after the handshake response has been
absorbed. -/
def handshakeJar (st : ApiState) (r : HttpResp) : List (String × String) :=
  updateJar (ensureSession st).2.jar r.setCookies

theorem countEndpoint_cons_le (q : Request) (l : List Request) (e : Endpoint)
    (h : q.endpoint = e) : 1 ≤ countEndpoint (q :: l) e := by
  simp [countEndpoint, List.filter_cons, h]

theorem ensureSession_accountReference (st : ApiState) :
    (ensureSession st).1.accountReference = st.accountReference := by
  rcases st with ⟨a, p, t, s⟩
  cases s with
  | none => rfl
  | some ses => simp only [ensureSession]; split <;> rfl

theorem ensureSession_password (st : ApiState) :
    (ensureSession st).1.password = st.password := by
  rcases st with ⟨a, p, t, s⟩
  cases s with
  | none => rfl
  | some ses => simp only [ensureSession]; split <;> rfl

theorem ensureSession_token (st : ApiState) :
    (ensureSession st).1.token = st.token := by
  rcases st with ⟨a, p, t, s⟩
  cases s with
  | none => rfl
  | some ses => simp only [ensureSession]; split <;> rfl

/-- One-step characterization of `login` on a script whose handshake succeeds
(status 204) and leaves a usable anti-forgery cookie: the login POST is issued
with the decoded cookie value in its anti-forgery header, and the outcome is
decided by the second response alone. -/
theorem login_cons_cons (st : ApiState) (r1 r2 : HttpResp) (rest : List HttpResp)
    (t : String) (h1 : r1.status = 204)
    (hx : xsrfLookup (handshakeJar st r1) = some t) (ht : t ≠ "") :
    login st (r1 :: r2 :: rest) =
      (let req2 : Request :=
        ⟨.login, none, some t, some (st.accountReference, st.password), none⟩
      let ses2 : Session :=
        ⟨(ensureSession st).2.closed, updateJar (handshakeJar st r1) r2.setCookies⟩
      if r2.status ≠ 200 then
        ⟨some false, putSession (ensureSession st).1 ses2, rest, [csrfRequest, req2]⟩
      else if r2.success then
        ⟨some true, { (ensureSession st).1 with token := r2.token, sess := some ses2 },
          rest, [csrfRequest, req2]⟩
      else
        ⟨some false, putSession (ensureSession st).1 ses2, rest, [csrfRequest, req2]⟩) := by
  rw [show st.accountReference = (ensureSession st).1.accountReference from
        (ensureSession_accountReference st).symm,
      show st.password = (ensureSession st).1.password from
        (ensureSession_password st).symm]
  unfold login
  dsimp only
  rw [if_neg (by simp [h1])]
  simp only [handshakeJar] at hx
  rw [hx]
  dsimp only
  rw [if_neg ht]
  rfl

/-! ## Claim theorems -/

/-- C1: the claim states that a data call which receives an
authorization-failure status (401/403/419) and, after one re-authentication,
again receives an authorization-failure status terminates with an
Unauthorized error having issued exactly two requests to that endpoint.  The
code instead retries without bound: evaluated on a script in which the first
two data responses are 401 (with the intervening re-login attempts failing on
the handshake) and the third data response succeeds, `get_tank_data` issues a
third request to the data endpoint and terminates successfully with that
response's payload rather than with an error. -/
theorem c1_third_request_issued :
    countEndpoint (getTankData st0 [resp401, resp500, resp401, resp500, respTankOk]).log
      .tankData = 3 ∧
    (getTankData st0 [resp401, resp500, resp401, resp500, respTankOk]).res =
      .ok ⟨some 42, some 10, some 1000, some "2024-01-01"⟩ := by
  constructor <;>
    simp [getTankData, login, ensureSession, putSession, updateJar, xsrfLookup,
      bearer, csrfRequest, countEndpoint, st0, resp401, resp500, respTankOk]

/-- C2: `submit_gauge_reading` rejects every reading outside `[0, 100]` with a
`ValueError` before any request is issued (the request log is empty), and for
every reading in `[0, 100]` — including the boundaries — validation passes and
a request is issued to the gauge endpoint. -/
theorem c2_submit_validation (st : ApiState) (env : List HttpResp) (reading : Int) :
    (¬ (0 ≤ reading ∧ reading ≤ 100) →
      (submitGaugeReading st env reading).res =
        .exc (.valueError "Reading must be between 0 and 100") ∧
      (submitGaugeReading st env reading).log = []) ∧
    ((0 ≤ reading ∧ reading ≤ 100) →
      1 ≤ countEndpoint (submitGaugeReading st env reading).log .gauge) := by
  constructor
  · intro h
    unfold submitGaugeReading
    rw [if_pos h]
    exact ⟨rfl, rfl⟩
  · intro h
    unfold submitGaugeReading
    rw [if_neg (by simp [h.1, h.2])]
    cases env with
    | nil => simp [countEndpoint]
    | cons r rest =>
      dsimp only
      split
      · exact countEndpoint_cons_le _ _ _ rfl
      · split
        · simp [countEndpoint]
        · split <;> simp [countEndpoint]

/-- Witness for C2: `submit(150)` is rejected with `ValueError` and no request
is issued; `submit(100)` passes validation and a gauge request is issued. -/
theorem c2_submit_validation_witness :
    ((submitGaugeReading st0 [] 150).res =
        .exc (.valueError "Reading must be between 0 and 100") ∧
      (submitGaugeReading st0 [] 150).log = []) ∧
    1 ≤ countEndpoint (submitGaugeReading st0 [respGaugeOk] 100).log .gauge :=
  ⟨(c2_submit_validation st0 [] 150).1 (by decide),
   (c2_submit_validation st0 [respGaugeOk] 100).2 (by decide)⟩

/-- C7: `close` is idempotent: after one `close`, a second `close` performs no
further transport activity (its activity flag is `false`) and leaves the state
unchanged; and `close` on a never-opened session (one whose `_session` is
`None`) is safe, changing nothing and performing no transport activity.
`close` is a total function and raises nothing. -/
theorem c7_close_idempotent (st : ApiState) (acct pw : String) (tok : Option String) :
    (close (close st).1).2 = false ∧
    (close (close st).1).1 = (close st).1 ∧
    close ⟨acct, pw, tok, none⟩ = (⟨acct, pw, tok, none⟩, false) := by
  refine ⟨?_, ?_, rfl⟩ <;>
  · rcases st with ⟨a, p, t, s⟩
    cases s with
    | none => simp [close]
    | some ses =>
      rcases ses with ⟨c, j⟩
      cases c <;> simp [close]

/-- C5 counterexample: the claim says `login` fails before the login step in
exactly two cases — non-204 handshake, or no `XSRF-TOKEN` cookie present.
But on a script whose handshake returns 204 and sets an `XSRF-TOKEN` cookie
with an empty value, the cookie is present in the session's jar, yet `login`
returns `False` without issuing the login request (Python's `if not
xsrf_token` treats the empty decoded value like an absent one): a third
pre-login failure case. -/
theorem c5_counterexample :
    (login st0 [respCsrfEmptyCookie, respLoginOk]).res = some false ∧
    countEndpoint (login st0 [respCsrfEmptyCookie, respLoginOk]).log .login = 0 ∧
    (login st0 [respCsrfEmptyCookie, respLoginOk]).st.sess =
      some ⟨false, [("XSRF-TOKEN", "")]⟩ := by
  decide

/-- C5 as amended: `login` fails (returning `False`) without attempting the
login step in exactly three pre-login cases — (1) the handshake status is not
204; (2) after a 204 handshake the `XSRF-TOKEN` cookie is absent, or present
but with a value that URL-decodes to the empty string; and otherwise (3) the
login request is issued carrying the URL-decoded cookie value as its
anti-forgery header. -/
theorem c5_prelogin_failures (st : ApiState) (r1 : HttpResp) (rest : List HttpResp) :
    (r1.status ≠ 204 →
      (login st (r1 :: rest)).res = some false ∧
      (login st (r1 :: rest)).log = [csrfRequest]) ∧
    (r1.status = 204 →
      (xsrfLookup (handshakeJar st r1) = none ∨
        xsrfLookup (handshakeJar st r1) = some "") →
      (login st (r1 :: rest)).res = some false ∧
      (login st (r1 :: rest)).log = [csrfRequest]) ∧
    (∀ p : String × String, r1.status = 204 →
      ((handshakeJar st r1).find? fun c => c.1 == "XSRF-TOKEN") = some p →
      urlUnquote p.2 ≠ "" →
      (login st (r1 :: rest)).log =
        [csrfRequest,
         ⟨.login, none, some (urlUnquote p.2),
          some (st.accountReference, st.password), none⟩]) := by
  refine ⟨?_, ?_, ?_⟩
  · intro h
    unfold login
    dsimp only
    rw [if_pos h]
    exact ⟨rfl, rfl⟩
  · intro h hx
    unfold login
    dsimp only
    rw [if_neg (by simp [h])]
    simp only [handshakeJar] at hx
    rcases hx with hx | hx <;> rw [hx]
    · exact ⟨rfl, rfl⟩
    · dsimp only
      rw [if_pos rfl]
      exact ⟨rfl, rfl⟩
  · intro p h hf hne
    have hx : xsrfLookup (handshakeJar st r1) = some (urlUnquote p.2) := by
      simp only [xsrfLookup, hf, Option.map_some']
    rw [show st.accountReference = (ensureSession st).1.accountReference from
          (ensureSession_accountReference st).symm,
        show st.password = (ensureSession st).1.password from
          (ensureSession_password st).symm]
    unfold login
    dsimp only
    rw [if_neg (by simp [h])]
    simp only [handshakeJar] at hx
    rw [hx]
    dsimp only
    rw [if_neg hne]
    cases rest with
    | nil => rfl
    | cons r2 rest2 =>
      dsimp only
      split
      · rfl
      · split <;> rfl

/-- Witness for C5 as amended, at concrete scripts: a 500 handshake fails with
only the handshake request issued; a 204 handshake leaving an empty-valued
cookie fails with only the handshake request issued; a 204 handshake leaving
the percent-encoded cookie `tok%3A1` leads to a login request whose
anti-forgery header is the decoded value. -/
theorem c5_prelogin_failures_witness :
    ((login st0 [resp500]).res = some false ∧
      (login st0 [resp500]).log = [csrfRequest]) ∧
    ((login st0 [respCsrfEmptyCookie]).res = some false ∧
      (login st0 [respCsrfEmptyCookie]).log = [csrfRequest]) ∧
    (login st0 [respCsrfOk, respLoginOk]).log =
      [csrfRequest,
       ⟨.login, none, some (urlUnquote "tok%3A1"),
        some (st0.accountReference, st0.password), none⟩] :=
  ⟨(c5_prelogin_failures st0 resp500 []).1 (by decide),
   (c5_prelogin_failures st0 respCsrfEmptyCookie []).2.1 rfl (Or.inr (by decide)),
   (c5_prelogin_failures st0 respCsrfOk [respLoginOk]).2.2
     ("XSRF-TOKEN", "tok%3A1") rfl (by decide) (by decide)⟩

/-- C6 counterexample: the claim says a token-mismatch (419) on the login POST
is signalled as a distinct error, distinguishable by the caller from invalid
credentials and from a generic rejection, and that the protocol is retried
from the handshake.  On the code, all three scripts produce the identical
result `False` (the only value surfaced to the caller), and after the 419 no
second handshake request is issued. -/
theorem c6_counterexample :
    (login st0 [respCsrfOk, respLogin419]).res = some false ∧
    (login st0 [respCsrfOk, respLogin419]).res =
      (login st0 [respCsrfOk, respLoginBadCreds]).res ∧
    (login st0 [respCsrfOk, respLogin419]).res =
      (login st0 [respCsrfOk, respLoginRejected]).res ∧
    countEndpoint (login st0 [respCsrfOk, respLogin419]).log .csrf = 1 := by
  decide

/-- C6 as amended: when the login request fails with the token-mismatch
status (419), `login` returns the plain boolean `False` — the same value it
returns for invalid credentials and for a generic rejection, so the outcomes
are not distinguishable in the result surfaced to the caller (they differ
only in log output) — it does not retry from the handshake (exactly one
handshake and one login request are issued), and the stored bearer token is
left unchanged. -/
theorem c6_token_mismatch_no_retry (st : ApiState) (r1 r2 : HttpResp)
    (rest : List HttpResp) (t : String) (h1 : r1.status = 204)
    (hx : xsrfLookup (handshakeJar st r1) = some t) (ht : t ≠ "")
    (h2 : r2.status = 419) :
    (login st (r1 :: r2 :: rest)).res = some false ∧
    (login st (r1 :: r2 :: rest)).log =
      [csrfRequest,
       ⟨.login, none, some t, some (st.accountReference, st.password), none⟩] ∧
    (login st (r1 :: r2 :: rest)).st.token = st.token := by
  rw [login_cons_cons st r1 r2 rest t h1 hx ht]
  dsimp only
  rw [if_pos (by omega)]
  exact ⟨rfl, rfl, by simp [putSession, ensureSession_token]⟩

/-- Witness for C6 as amended, at a concrete script: handshake 204 with the
cookie `tok%3A1`, then a 419 on the login POST. -/
theorem c6_token_mismatch_no_retry_witness :
    (login st0 [respCsrfOk, respLogin419]).res = some false ∧
    (login st0 [respCsrfOk, respLogin419]).log =
      [csrfRequest,
       ⟨.login, none, some "tok:1", some (st0.accountReference, st0.password), none⟩] ∧
    (login st0 [respCsrfOk, respLogin419]).st.token = st0.token :=
  c6_token_mismatch_no_retry st0 respCsrfOk respLogin419 [] "tok:1" rfl
    (by decide) (by decide) rfl

/-- C8: on a login response with HTTP 200 and a true success flag, `login`
reports success (returns `True`) and stores whatever `response.token` the
body carries — including the absent value — into the session's `_token`.
Success is reported even when the body carries no bearer token. -/
theorem c8_login_success_token_stored (st : ApiState) (r1 r2 : HttpResp)
    (rest : List HttpResp) (t : String) (h1 : r1.status = 204)
    (hx : xsrfLookup (handshakeJar st r1) = some t) (ht : t ≠ "")
    (h2 : r2.status = 200) (hs : r2.success = true) :
    (login st (r1 :: r2 :: rest)).res = some true ∧
    (login st (r1 :: r2 :: rest)).st.token = r2.token := by
  rw [login_cons_cons st r1 r2 rest t h1 hx ht]
  dsimp only
  rw [if_neg (by simp [h2]), if_pos hs]
  exact ⟨rfl, rfl⟩

/-- Witness for C8, at a concrete script whose successful login response
carries no token: `login` still returns `True` and stores the absent token. -/
theorem c8_login_success_token_stored_witness :
    respLoginNoToken.token = none ∧
    (login st0 [respCsrfOk, respLoginNoToken]).res = some true ∧
    (login st0 [respCsrfOk, respLoginNoToken]).st.token = respLoginNoToken.token :=
  ⟨rfl,
   (c8_login_success_token_stored st0 respCsrfOk respLoginNoToken [] "tok:1" rfl
      (by decide) (by decide) rfl rfl).1,
   (c8_login_success_token_stored st0 respCsrfOk respLoginNoToken [] "tok:1" rfl
      (by decide) (by decide) rfl rfl).2⟩

/-- C10: a previously stored bearer token does not survive a token-less
successful re-login: when the login response has HTTP 200 and a true success
flag but its body lacks a token, the stored token is overwritten with the
absent value. -/
theorem c10_token_overwritten (acct pw t0 : String) (sess : Option Session)
    (r1 r2 : HttpResp) (rest : List HttpResp) (t : String) (h1 : r1.status = 204)
    (hx : xsrfLookup (handshakeJar ⟨acct, pw, some t0, sess⟩ r1) = some t)
    (ht : t ≠ "") (h2 : r2.status = 200) (hs : r2.success = true)
    (hn : r2.token = none) :
    (login ⟨acct, pw, some t0, sess⟩ (r1 :: r2 :: rest)).st.token = none := by
  rw [login_cons_cons _ r1 r2 rest t h1 hx ht]
  dsimp only
  rw [if_neg (by simp [h2]), if_pos hs]
  exact hn

/-- Witness for C10: a client holding the bearer token `OLD` re-logs in
against a successful token-less login script and ends with no stored token. -/
theorem c10_token_overwritten_witness :
    (login ⟨"acct", "pw", some "OLD", none⟩ [respCsrfOk, respLoginNoToken]).st.token =
      none :=
  c10_token_overwritten "acct" "pw" "OLD" none respCsrfOk respLoginNoToken [] "tok:1"
    rfl (by decide) (by decide) rfl rfl rfl

/-! ## Step lemmas for the data fetches -/

theorem getTankData_ok_step (st : ApiState) (r : HttpResp) (rest : List HttpResp)
    (h1 : r.status = 200) (hs : r.success = true) :
    getTankData st (r :: rest) =
      ⟨.ok ⟨r.remainingPercentage, r.daysRemaining, r.tankCapacity, r.lastGaugeReadingDate⟩,
       putSession (ensureSession st).1
         ⟨(ensureSession st).2.closed, updateJar (ensureSession st).2.jar r.setCookies⟩,
       rest,
       [⟨.tankData, bearer (ensureSession st).1.token,
         xsrfLookup (ensureSession st).2.jar, none, none⟩]⟩ := by
  unfold getTankData
  dsimp only
  rw [if_neg (by simp [h1]), if_neg (by simp [h1]), if_pos hs]

theorem getTankData_err_step (st : ApiState) (r : HttpResp) (rest : List HttpResp)
    (hauth : ¬ (r.status = 401 ∨ r.status = 403 ∨ r.status = 419))
    (hne : r.status ≠ 200) :
    getTankData st (r :: rest) =
      ⟨.exc (.updateFailed ("Error fetching data: " ++ toString r.status)),
       putSession (ensureSession st).1
         ⟨(ensureSession st).2.closed, updateJar (ensureSession st).2.jar r.setCookies⟩,
       rest,
       [⟨.tankData, bearer (ensureSession st).1.token,
         xsrfLookup (ensureSession st).2.jar, none, none⟩]⟩ := by
  unfold getTankData
  dsimp only
  rw [if_neg hauth, if_pos hne]

theorem getTankData_apierr_step (st : ApiState) (r : HttpResp) (rest : List HttpResp)
    (hauth : ¬ (r.status = 401 ∨ r.status = 403 ∨ r.status = 419))
    (h200 : r.status = 200) (hs : r.success = false) :
    getTankData st (r :: rest) =
      ⟨.exc (.updateFailed "API error"),
       putSession (ensureSession st).1
         ⟨(ensureSession st).2.closed, updateJar (ensureSession st).2.jar r.setCookies⟩,
       rest,
       [⟨.tankData, bearer (ensureSession st).1.token,
         xsrfLookup (ensureSession st).2.jar, none, none⟩]⟩ := by
  unfold getTankData
  dsimp only
  rw [if_neg hauth, if_neg (by simp [h200]), if_neg (by simp [hs])]

theorem getCustomerData_degraded_step (st : ApiState) (r : HttpResp)
    (rest : List HttpResp)
    (hauth : ¬ (r.status = 401 ∨ r.status = 403 ∨ r.status = 419))
    (hf : r.status ≠ 200 ∨ r.success = false) :
    (getCustomerData st (r :: rest)).res = .ok .empty ∧
    (getCustomerData st (r :: rest)).env = rest := by
  unfold getCustomerData
  dsimp only
  rw [if_neg hauth]
  rcases hf with hf | hf
  · rw [if_pos hf]
    exact ⟨rfl, rfl⟩
  · by_cases hst : r.status ≠ 200
    · rw [if_pos hst]
      exact ⟨rfl, rfl⟩
    · rw [if_neg hst, if_neg (by simp [hf])]
      exact ⟨rfl, rfl⟩

/-- C3 counterexample: the claim covers every refresh whose secondary
(customer) fetch fails with a non-200 status, and says the snapshot then
omits the balance.  But a 401 on the customer fetch is a non-200 failure that
triggers re-login and a second customer request instead: on a script where the
re-login succeeds and the retried customer fetch returns a balance, the
refresh resolves with the balance present in the snapshot (and two customer
requests issued), contradicting the claimed omission. -/
theorem c3_counterexample :
    (getAllData st0 [respTankOk, resp401, respCsrfOk, respLoginOk, respCustomerOk]).res =
      .ok ⟨⟨some 42, some 10, some 1000, some "2024-01-01"⟩, some (some 5)⟩ ∧
    countEndpoint
      (getAllData st0 [respTankOk, resp401, respCsrfOk, respLoginOk, respCustomerOk]).log
      .customer = 2 := by
  constructor <;>
    simp [getAllData, getTankData, getCustomerData, login, mergeData, ensureSession,
      putSession, updateJar, xsrfLookup, urlUnquote, unquoteChars, hexDigit, bearer,
      csrfRequest, countEndpoint, st0, respTankOk, resp401, respCsrfOk, respLoginOk,
      respCustomerOk]

/-- C3 as amended: for every refresh in which the primary (tank) fetch
succeeds and the secondary (customer) fetch fails with a non-200 status
outside the re-authentication set {401, 403, 419}, or with a false success
flag, the refresh returns a snapshot containing exactly the primary fields
with the balance omitted, and no exception escapes. -/
theorem c3_secondary_failure_degrades (st : ApiState) (r1 r2 : HttpResp)
    (rest : List HttpResp) (h1 : r1.status = 200) (hs : r1.success = true)
    (hauth : ¬ (r2.status = 401 ∨ r2.status = 403 ∨ r2.status = 419))
    (hf : r2.status ≠ 200 ∨ r2.success = false) :
    (getAllData st (r1 :: r2 :: rest)).res =
      .ok ⟨⟨r1.remainingPercentage, r1.daysRemaining, r1.tankCapacity,
            r1.lastGaugeReadingDate⟩, none⟩ := by
  unfold getAllData
  rw [getTankData_ok_step st r1 (r2 :: rest) h1 hs]
  dsimp only
  rw [(getCustomerData_degraded_step _ r2 rest hauth hf).1]
  simp [mergeData]

/-- Witness for C3 as amended: a successful tank response followed by a 500 on
the customer endpoint yields the four tank fields with no balance key. -/
theorem c3_secondary_failure_degrades_witness :
    (getAllData st0 [respTankOk, resp500]).res =
      .ok ⟨⟨some 42, some 10, some 1000, some "2024-01-01"⟩, none⟩ :=
  c3_secondary_failure_degrades st0 respTankOk resp500 [] rfl rfl (by decide)
    (Or.inl (by decide))

/-- C4: when the primary (tank) fetch returns a non-2xx status outside
{401, 403, 419}, or a 2xx status with a false success flag, the refresh
(`_async_update_data`) propagates an `UpdateFailed` exception wrapping the
failure, and the coordinator's previously cached snapshot is left unchanged
by the failed refresh. -/
theorem c4_primary_failure_propagates (cached : Option AllData) (st : ApiState)
    (r : HttpResp) (rest : List HttpResp)
    (hauth : ¬ (r.status = 401 ∨ r.status = 403 ∨ r.status = 419))
    (hfail : ¬ (200 ≤ r.status ∧ r.status < 300) ∨
      (200 ≤ r.status ∧ r.status < 300 ∧ r.success = false)) :
    (∃ msg, (asyncUpdateData st (r :: rest)).res = .exc (.updateFailed msg)) ∧
    (coordinatorRefresh cached st (r :: rest)).1 = cached := by
  have key : ∃ msg, getTankData st (r :: rest) =
      ⟨.exc (.updateFailed msg),
       putSession (ensureSession st).1
         ⟨(ensureSession st).2.closed, updateJar (ensureSession st).2.jar r.setCookies⟩,
       rest,
       [⟨.tankData, bearer (ensureSession st).1.token,
         xsrfLookup (ensureSession st).2.jar, none, none⟩]⟩ := by
    rcases hfail with h | ⟨hlo, hhi, hs⟩
    · exact ⟨_, getTankData_err_step st r rest hauth (by omega)⟩
    · by_cases h200 : r.status = 200
      · exact ⟨_, getTankData_apierr_step st r rest hauth h200 hs⟩
      · exact ⟨_, getTankData_err_step st r rest hauth h200⟩
  obtain ⟨msg, hm⟩ := key
  constructor
  · refine ⟨msg, ?_⟩
    unfold asyncUpdateData getAllData
    rw [hm]
  · unfold coordinatorRefresh asyncUpdateData getAllData
    rw [hm]

/-- Witness for C4: with a cached snapshot in place, a 500 on the tank fetch
raises `UpdateFailed` and leaves the cache untouched. -/
theorem c4_primary_failure_propagates_witness :
    (∃ msg, (asyncUpdateData st0 [resp500]).res = .exc (.updateFailed msg)) ∧
    (coordinatorRefresh (some ⟨⟨some 1, some 2, some 3, some "d"⟩, none⟩) st0
      [resp500]).1 = some ⟨⟨some 1, some 2, some 3, some "d"⟩, none⟩ :=
  c4_primary_failure_propagates (some ⟨⟨some 1, some 2, some 3, some "d"⟩, none⟩)
    st0 resp500 [] (by decide) (Or.inl (by decide))

end Flogas
